import Mathlib

/-!
Shallow embedding of the Easee Home Assistant integration modules
`custom_components/easee/entity.py` and
`custom_components/easee/device_condition.py`.

Python values flowing through the entity code are modelled by `Value`
(numbers as exact rationals, strings, datetimes by their instant, and
Python `None`).  Python exceptions are modelled by `PyErr`; a Python
function that can raise is embedded as a function into `Except PyErr`.
Python dicts are modelled as association lists of string keys.
-/

/-- Python exception classes that the embedded code can raise. -/
inductive PyErr where
  | typeError
  | keyError
  | indexError
  | valueError
  | attributeError
deriving DecidableEq, Repr

/-- Python values stored in the data buckets: numbers (int/float merged, as
exact rationals), strings, datetimes (modelled by their instant, an integer
timestamp), and Python None. -/
inductive Value where
  | num (q : ℚ)
  | str (s : String)
  | dt (t : ℤ)
  | none
deriving DecidableEq, Repr

deriving instance DecidableEq for Except

/-- A Python dict with string keys, modelled as an association list. -/
abbrev Dict : Type := List (String × Value)

/-- Dict lookup: Python `d[k]` succeeds exactly when the key is present. -/
def Dict.get? (d : Dict) (k : String) : Option Value :=
  (List.find? (fun p => p.1 = k) d).map (fun p => p.2)

/-- Dict update: Python `d[k] = v` overwrites an existing binding or appends. -/
def Dict.set (d : Dict) (k : String) (v : Value) : Dict :=
  if List.any d (fun p => p.1 = k) then
    List.map (fun p => if p.1 = k then (k, v) else p) d
  else d ++ [(k, v)]

/-- Subscripting a possibly-None dict, Python `b[k]`: `None[k]` raises
TypeError, a missing key raises KeyError. -/
def dictAccess : Option Dict → String → Except PyErr Value
  | Option.none, _ => .error .typeError
  | Option.some d, k =>
    match Dict.get? d k with
    | Option.some v => .ok v
    | Option.none => .error .keyError

/-- Python `str.split(".")` on the underlying characters: splits at every
dot, never returns an empty list. -/
def pySplitDot : List Char → List (List Char)
  | [] => [[]]
  | c :: cs =>
    if c = '.' then [] :: pySplitDot cs
    else
      match pySplitDot cs with
      | [] => [[c]]
      | p :: ps => (c :: p) :: ps

/-- Number of dot characters in a key. -/
def countDot : List Char → Nat
  | [] => 0
  | c :: cs => (if c = '.' then 1 else 0) + countDot cs

/-- Python `first, second = key.split(".")`: unpacking anything but exactly
two parts raises ValueError. -/
def splitKey (key : String) : Except PyErr (String × String) :=
  match pySplitDot key.data with
  | [a, b] => .ok (a.asString, b.asString)
  | _ => .error .valueError

/-- The per-entity bag of data buckets owned by the external controller
object (`self.data`).  Every bucket may be Python None. -/
structure ChargerData where
  config : Option Dict
  state : Option Dict
  circuit : Option Dict
  site : Option Dict
  cost_day : Option Dict
  cost_month : Option Dict
  cost_year : Option Dict
  schedule : Option Dict
  weekly_schedule : Option Dict
deriving DecidableEq

/-- The bucket named by a key's first part: `none` for an unrecognized
name, otherwise the (possibly None) dict attribute of the data object. -/
def bucketOf (data : ChargerData) : String → Option (Option Dict)
  | "config" => Option.some data.config
  | "state" => Option.some data.state
  | "circuit" => Option.some data.circuit
  | "site" => Option.some data.site
  | "cost_day" => Option.some data.cost_day
  | "cost_month" => Option.some data.cost_month
  | "cost_year" => Option.some data.cost_year
  | "schedule" => Option.some data.schedule
  | "weekly_schedule" => Option.some data.weekly_schedule
  | _ => Option.none

/-- The nine bucket names recognized by `get_value_from_key`. -/
def nineBuckets : List String :=
  ["config", "state", "circuit", "site", "cost_day", "cost_month",
   "cost_year", "schedule", "weekly_schedule"]

/-- The six bucket names recognized by `set_value_from_key`. -/
def sixBuckets : List String :=
  ["config", "state", "circuit", "site", "schedule", "weekly_schedule"]

/-- The four buckets whose None-ness `set_value_from_key` checks before
writing. -/
def noneCheckedBuckets : List String :=
  ["config", "state", "schedule", "weekly_schedule"]

/-- Modelled from the spec: `dt_util.as_local` is a host (Home Assistant)
timezone conversion, absent from this repository; it preserves the instant
a datetime denotes, and datetimes are modelled by their instant. -/
def asLocal (t : ℤ) : ℤ := t

/-- The `isinstance(value, datetime)` conversion at the end of
`get_value_from_key`. -/
def localize : Value → Value
  | .dt t => .dt (asLocal t)
  | v => v

theorem localize_eq (v : Value) : localize v = v := by
  cases v <;> simp [localize, asLocal]

/-- Dispatch body of `get_value_from_key` after the split: the if/elif
chain over the first key part, in source order. -/
def getRaw (data : ChargerData) (first second : String) : Except PyErr Value :=
  if first = "config" then dictAccess data.config second
  else if first = "state" then dictAccess data.state second
  else if first = "circuit" then dictAccess data.circuit second
  else if first = "site" then dictAccess data.site second
  else if first = "cost_day" then dictAccess data.cost_day second
  else if first = "cost_month" then dictAccess data.cost_month second
  else if first = "cost_year" then dictAccess data.cost_year second
  else if first = "schedule" then
    match data.schedule with
    | Option.some d => dictAccess (Option.some d) second
    | Option.none => .ok Value.none
  else if first = "weekly_schedule" then
    match data.weekly_schedule with
    | Option.some d => dictAccess (Option.some d) second
    | Option.none => .ok Value.none
  else .error .indexError

/-- Dispatch, datetime localization, and the `except KeyError` fallback of
`get_value_from_key`, after the key has been split.  The `try` block also
wraps the split itself, but the split can only raise ValueError, which the
`except KeyError` clause never catches, so the handler is applied here. -/
def getAfterSplit (data : ChargerData) (first second : String) :
    Except PyErr Value :=
  match getRaw data first second with
  | .ok v => .ok (localize v)
  | .error .keyError => .ok (.str "")
  | .error e => .error e

/-- ChargerEntity.get_value_from_key: the surrounding `try` catches only
KeyError, turning it into the empty string; every other exception
propagates. -/
def get_value_from_key (data : ChargerData) (key : String) : Except PyErr Value :=
  match splitKey key with
  | .error e => .error e
  | .ok (first, second) => getAfterSplit data first second

/-- Dispatch body of `set_value_from_key` after the split: config, state,
schedule and weekly_schedule writes are guarded by a None check; circuit
and site are written unconditionally (`None[k] = v` raises TypeError); any
other first part raises IndexError.  There are no cost_day / cost_month /
cost_year branches. -/
def setRaw (data : ChargerData) (first second : String) (v : Value) :
    Except PyErr ChargerData :=
  if first = "config" then
    .ok (match data.config with
         | Option.some d => { data with config := Option.some (Dict.set d second v) }
         | Option.none => data)
  else if first = "state" then
    .ok (match data.state with
         | Option.some d => { data with state := Option.some (Dict.set d second v) }
         | Option.none => data)
  else if first = "circuit" then
    match data.circuit with
    | Option.some d => .ok { data with circuit := Option.some (Dict.set d second v) }
    | Option.none => .error .typeError
  else if first = "site" then
    match data.site with
    | Option.some d => .ok { data with site := Option.some (Dict.set d second v) }
    | Option.none => .error .typeError
  else if first = "schedule" then
    .ok (match data.schedule with
         | Option.some d => { data with schedule := Option.some (Dict.set d second v) }
         | Option.none => data)
  else if first = "weekly_schedule" then
    .ok (match data.weekly_schedule with
         | Option.some d => { data with weekly_schedule := Option.some (Dict.set d second v) }
         | Option.none => data)
  else .error .indexError

/-- Dispatch of `set_value_from_key` after the split, followed by
`return value`. -/
def setAfterSplit (data : ChargerData) (first second : String) (v : Value) :
    Except PyErr (ChargerData × Value) :=
  match setRaw data first second v with
  | .error e => .error e
  | .ok data2 => .ok (data2, v)

/-- ChargerEntity.set_value_from_key: no internal exception handling; on
success returns the updated data object together with `value` (the
function's return value). -/
def set_value_from_key (data : ChargerData) (key : String) (v : Value) :
    Except PyErr (ChargerData × Value) :=
  match splitKey key with
  | .error e => .error e
  | .ok (first, second) => setAfterSplit data first second v

/-- Modelled from the spec: the host constant `UnitOfPower.WATT` ("W"). -/
def WATT : String := "W"

/-- Modelled from the spec: the host constant `UnitOfEnergy.WATT_HOUR`
("Wh"). -/
def WATT_HOUR : String := "Wh"

/-- Python string repetition `s * n`. -/
def pyStrRepl (s : List Char) : Nat → List Char
  | 0 => []
  | n + 1 => s ++ pyStrRepl s n

/-- Python `value * 1000`: numbers scale, strings replicate, datetime and
None raise TypeError. -/
def pyMul1000 : Value → Except PyErr Value
  | .num q => .ok (.num (q * 1000))
  | .str s => .ok (.str (List.asString (pyStrRepl s.data 1000)))
  | _ => .error .typeError

/-- Python's round-half-to-even on an exact rational, to an integer. -/
def roundHalfEven (q : ℚ) : ℤ :=
  if q - ⌊q⌋ < 1 / 2 then ⌊q⌋
  else if 1 / 2 < q - ⌊q⌋ then ⌊q⌋ + 1
  else if ⌊q⌋ % 2 = 0 then ⌊q⌋ else ⌊q⌋ + 1

/-- Python `round(q, d)` for a nonnegative digit count. -/
def roundToDigits (q : ℚ) (d : Nat) : ℚ :=
  (roundHalfEven (q * 10 ^ d) : ℚ) / 10 ^ d

/-- Python built-in `round(value, decimals)`: only numbers round, anything
else raises TypeError; `decimals = None` rounds to an integer. -/
def pyRound (v : Value) (decimals : Option Nat) : Except PyErr Value :=
  match v, decimals with
  | .num q, Option.none => .ok (.num ((roundHalfEven q : ℤ) : ℚ))
  | .num q, Option.some d => .ok (.num (roundToDigits q d))
  | _, _ => .error .typeError

/-- round_to_dec: for watt units the value is first multiplied by 1000 and
the digit count discarded (the multiplication itself is outside the `try`
and can raise TypeError); the `round` call is wrapped in
`try ... except TypeError: pass`, falling back to returning the
(possibly rebound) value. -/
def round_to_dec (value : Value) (decimals : Option Nat) (unit : Option String) :
    Except PyErr Value :=
  if unit = Option.some WATT ∨ unit = Option.some WATT_HOUR then
    match pyMul1000 value with
    | .error e => .error e
    | .ok v2 =>
      match pyRound v2 Option.none with
      | .ok r => .ok r
      | .error .typeError => .ok v2
      | .error e => .error e
  else
    match pyRound value decimals with
    | .ok r => .ok r
    | .error .typeError => .ok value
    | .error e => .error e

/-- round_2_dec. -/
def round_2_dec (value : Value) (unit : Option String) : Except PyErr Value :=
  round_to_dec value (Option.some 2) unit

/-- round_1_dec. -/
def round_1_dec (value : Value) (unit : Option String) : Except PyErr Value :=
  round_to_dec value (Option.some 1) unit

/-- round_0_dec passes `decimals = None` through to `round_to_dec`. -/
def round_0_dec (value : Value) (unit : Option String) : Except PyErr Value :=
  round_to_dec value Option.none unit

/-- Python `key.startswith(p)` on the underlying characters. -/
def pyStartsWith : List Char → List Char → Bool
  | _, [] => true
  | [], _ :: _ => false
  | b :: ss, a :: ps => a = b && pyStartsWith ss ps

/-- The entity fields that `async_update` reads: the state key, the units,
and the optional state / unit-conversion functions (arbitrary Python
callables supplied at construction, embedded as functions that may
raise). -/
structure EntityModel where
  state_key : String
  units : Option String
  state_func : Option (Option Dict → Except PyErr Value)
  convert_units_func : Option (Value → Option String → Except PyErr Value)

/-- One guarded `if self._state_key.startswith(p): self._state = f(bucket)`
step: skipped if an earlier step raised; on a raise `self._state` keeps its
current value and the exception starts propagating. -/
def stepIf (cond : Bool) (f : Option Dict → Except PyErr Value)
    (b : Option Dict) : Value × Option PyErr → Value × Option PyErr
  | (st, Option.some e) => (st, Option.some e)
  | (st, Option.none) =>
    if cond then
      match f b with
      | .ok v => (v, Option.none)
      | .error e => (st, Option.some e)
    else (st, Option.none)

/-- The four sequential startswith-guarded state-function applications in
`async_update`, in source order. -/
def applyStateFunc (f : Option Dict → Except PyErr Value) (key : String)
    (data : ChargerData) (st : Value) : Value × Option PyErr :=
  stepIf (pyStartsWith key.data "weekly_schedule".data) f data.weekly_schedule
    (stepIf (pyStartsWith key.data "schedule".data) f data.schedule
      (stepIf (pyStartsWith key.data "config".data) f data.config
        (stepIf (pyStartsWith key.data "state".data) f data.state
          (st, Option.none))))

/-- The final conversion step `self._state = self._convert_units_func(...)`:
on a raise `self._state` keeps its current value. -/
def updConvert (e : EntityModel) (st : Value) : Value × Option PyErr :=
  match e.convert_units_func with
  | Option.none => (st, Option.none)
  | Option.some g =>
    match g st e.units with
    | .ok v => (v, Option.none)
    | .error er => (st, Option.some er)

/-- Body of the `try` block of `async_update`, threading `self._state`
(initialized to None before the `try`): the value of `self._state` when the
block finishes or an exception starts propagating, together with that
exception. -/
def updAfterGet (e : EntityModel) (data : ChargerData) : Value × Option PyErr :=
  match get_value_from_key data e.state_key with
  | .error er => (Value.none, Option.some er)
  | .ok v =>
    let st := if v = Value.str "" then Value.none else v
    match e.state_func with
    | Option.none => updConvert e st
    | Option.some f =>
      match applyStateFunc f e.state_key data st with
      | (st2, Option.some er) => (st2, Option.some er)
      | (st2, Option.none) => updConvert e st2

/-- ChargerEntity.async_update: IndexError is re-raised (with a new
message), AttributeError / KeyError / TypeError are swallowed leaving
`self._state` as it was at the moment of the raise, and anything else
propagates.  The result is the final `self._state` (or the escaping
exception). -/
def async_update (e : EntityModel) (data : ChargerData) : Except PyErr Value :=
  match updAfterGet e data with
  | (st, Option.none) => .ok st
  | (_, Option.some .indexError) => .error .indexError
  | (st, Option.some .attributeError) => .ok st
  | (st, Option.some .keyError) => .ok st
  | (st, Option.some .typeError) => .ok st
  | (_, Option.some er) => .error er

/-- Modelled from the spec: the integration domain constant `DOMAIN` from
`const.py`, which is not under src/; the spec calls it the easee domain. -/
def DOMAIN : String := "easee"

/-- A host entity-registry entry, as read by `async_get_conditions`. -/
structure RegistryEntry where
  entity_id : String
  translation_key : Option String
deriving DecidableEq

/-- One device-condition dictionary produced by `async_get_conditions`:
CONF_CONDITION, CONF_DEVICE_ID, CONF_DOMAIN, CONF_ENTITY_ID, CONF_TYPE. -/
structure ConditionDict where
  condition : String
  device_id : String
  domain : String
  entity_id : String
  condType : String
deriving DecidableEq

/-- async_get_conditions: loops over the registry entries of the device,
and for each entry whose translation_key is "easee_status" appends one
condition dict per entry of CONDITION_TYPES.  CONDITION_TYPES is
`list(EASEE_STATUS.values())` with EASEE_STATUS defined in `const.py`
(not under src/), so it is passed here as a parameter. -/
def async_get_conditions (entries : List RegistryEntry) (device_id : String)
    (conditionTypes : List String) : List ConditionDict :=
  List.foldl
    (fun conditions entry =>
      if entry.translation_key = Option.some "easee_status" then
        conditions ++ List.map
          (fun c => { condition := "device", device_id := device_id,
                      domain := DOMAIN, entity_id := entry.entity_id,
                      condType := c })
          conditionTypes
      else conditions)
    [] entries

/-! ### Helper lemmas about the dispatch chains -/

theorem getRaw_config (data : ChargerData) (second : String) :
    getRaw data "config" second = dictAccess data.config second := rfl

theorem getRaw_state (data : ChargerData) (second : String) :
    getRaw data "state" second = dictAccess data.state second := rfl

theorem getRaw_circuit (data : ChargerData) (second : String) :
    getRaw data "circuit" second = dictAccess data.circuit second := rfl

theorem getRaw_site (data : ChargerData) (second : String) :
    getRaw data "site" second = dictAccess data.site second := rfl

theorem getRaw_cost_day (data : ChargerData) (second : String) :
    getRaw data "cost_day" second = dictAccess data.cost_day second := rfl

theorem getRaw_cost_month (data : ChargerData) (second : String) :
    getRaw data "cost_month" second = dictAccess data.cost_month second := rfl

theorem getRaw_cost_year (data : ChargerData) (second : String) :
    getRaw data "cost_year" second = dictAccess data.cost_year second := rfl

theorem getRaw_schedule (data : ChargerData) (second : String) :
    getRaw data "schedule" second =
      match data.schedule with
      | Option.some d => dictAccess (Option.some d) second
      | Option.none => .ok Value.none := rfl

theorem getRaw_weekly_schedule (data : ChargerData) (second : String) :
    getRaw data "weekly_schedule" second =
      match data.weekly_schedule with
      | Option.some d => dictAccess (Option.some d) second
      | Option.none => .ok Value.none := rfl

theorem getRaw_unknown (data : ChargerData) (first second : String)
    (h : first ∉ nineBuckets) : getRaw data first second = .error .indexError := by
  simp only [nineBuckets, List.mem_cons, List.not_mem_nil, or_false, not_or] at h
  obtain ⟨h1, h2, h3, h4, h5, h6, h7, h8, h9⟩ := h
  simp [getRaw, h1, h2, h3, h4, h5, h6, h7, h8, h9]

theorem setRaw_unknown (data : ChargerData) (first second : String) (v : Value)
    (h : first ∉ sixBuckets) : setRaw data first second v = .error .indexError := by
  simp only [sixBuckets, List.mem_cons, List.not_mem_nil, or_false, not_or] at h
  obtain ⟨h1, h2, h3, h4, h5, h6⟩ := h
  simp [setRaw, h1, h2, h3, h4, h5, h6]

theorem not_mem_six_of_not_mem_nine (first : String) (h : first ∉ nineBuckets) :
    first ∉ sixBuckets := by
  simp only [nineBuckets, sixBuckets, List.mem_cons, List.not_mem_nil, or_false,
    not_or] at h ⊢
  tauto

theorem bucketOf_config (data : ChargerData) :
    bucketOf data "config" = Option.some data.config := rfl

theorem bucketOf_state (data : ChargerData) :
    bucketOf data "state" = Option.some data.state := rfl

theorem bucketOf_circuit (data : ChargerData) :
    bucketOf data "circuit" = Option.some data.circuit := rfl

theorem bucketOf_site (data : ChargerData) :
    bucketOf data "site" = Option.some data.site := rfl

theorem bucketOf_cost_day (data : ChargerData) :
    bucketOf data "cost_day" = Option.some data.cost_day := rfl

theorem bucketOf_cost_month (data : ChargerData) :
    bucketOf data "cost_month" = Option.some data.cost_month := rfl

theorem bucketOf_cost_year (data : ChargerData) :
    bucketOf data "cost_year" = Option.some data.cost_year := rfl

theorem bucketOf_schedule (data : ChargerData) :
    bucketOf data "schedule" = Option.some data.schedule := rfl

theorem bucketOf_weekly_schedule (data : ChargerData) :
    bucketOf data "weekly_schedule" = Option.some data.weekly_schedule := rfl

theorem get_value_from_key_split (data : ChargerData) (key first second : String)
    (hs : splitKey key = .ok (first, second)) :
    get_value_from_key data key = getAfterSplit data first second := by
  unfold get_value_from_key
  rw [hs]

theorem set_value_from_key_split (data : ChargerData) (key first second : String)
    (v : Value) (hs : splitKey key = .ok (first, second)) :
    set_value_from_key data key v = setAfterSplit data first second v := by
  unfold set_value_from_key
  rw [hs]

theorem getRaw_known (data : ChargerData) (first second : String) (d : Dict)
    (hb : first ∈ nineBuckets)
    (hbk : bucketOf data first = Option.some (Option.some d)) :
    getRaw data first second = dictAccess (Option.some d) second := by
  simp only [nineBuckets, List.mem_cons, List.not_mem_nil, or_false] at hb
  rcases hb with rfl | rfl | rfl | rfl | rfl | rfl | rfl | rfl | rfl
  · rw [bucketOf_config] at hbk
    rw [getRaw_config, Option.some.inj hbk]
  · rw [bucketOf_state] at hbk
    rw [getRaw_state, Option.some.inj hbk]
  · rw [bucketOf_circuit] at hbk
    rw [getRaw_circuit, Option.some.inj hbk]
  · rw [bucketOf_site] at hbk
    rw [getRaw_site, Option.some.inj hbk]
  · rw [bucketOf_cost_day] at hbk
    rw [getRaw_cost_day, Option.some.inj hbk]
  · rw [bucketOf_cost_month] at hbk
    rw [getRaw_cost_month, Option.some.inj hbk]
  · rw [bucketOf_cost_year] at hbk
    rw [getRaw_cost_year, Option.some.inj hbk]
  · rw [bucketOf_schedule] at hbk
    rw [getRaw_schedule, Option.some.inj hbk]
  · rw [bucketOf_weekly_schedule] at hbk
    rw [getRaw_weekly_schedule, Option.some.inj hbk]

/-- A data object shared by the concrete witnesses below. -/
def sampleData : ChargerData :=
  { config := Option.some [("x", .num 1)],
    state := Option.some [("x", .dt 0)],
    circuit := Option.none,
    site := Option.none,
    cost_day := Option.some [("y", .num 3)],
    cost_month := Option.none,
    cost_year := Option.none,
    schedule := Option.none,
    weekly_schedule := Option.none }

/-! ### Claims about get_value_from_key -/

/-- C1: for every key "first.second" whose first part names one of the nine
recognized buckets, when that bucket is not None and second is present in
it, get_value_from_key returns the value stored in the bucket under
second. -/
theorem get_known_key_returns_bucket_value (data : ChargerData)
    (key first second : String) (d : Dict) (v : Value)
    (hs : splitKey key = .ok (first, second))
    (hb : first ∈ nineBuckets)
    (hbk : bucketOf data first = Option.some (Option.some d))
    (hv : Dict.get? d second = Option.some v) :
    get_value_from_key data key = .ok v := by
  rw [get_value_from_key_split data key first second hs]
  unfold getAfterSplit
  rw [getRaw_known data first second d hb hbk]
  simp [dictAccess, hv, localize_eq]

/-- Witness for C1 at a concrete input. -/
theorem get_known_key_returns_bucket_value_witness :
    splitKey "config.x" = .ok ("config", "x") ∧
    get_value_from_key sampleData "config.x" = .ok (.num 1) :=
  ⟨by decide,
   get_known_key_returns_bucket_value sampleData "config.x" "config" "x"
     [("x", Value.num 1)] (Value.num 1) (by decide) (by decide) (by decide)
     (by decide)⟩

/-- C2: for every key "first.second" whose first part is not one of the
nine recognized bucket names, both get_value_from_key and
set_value_from_key raise IndexError, and get_value_from_key's internal
`except KeyError` does not swallow it. -/
theorem unknown_first_part_raises_index_error (data : ChargerData)
    (key first second : String) (v : Value)
    (hs : splitKey key = .ok (first, second))
    (hb : first ∉ nineBuckets) :
    get_value_from_key data key = .error .indexError ∧
    set_value_from_key data key v = .error .indexError := by
  constructor
  · rw [get_value_from_key_split data key first second hs]
    unfold getAfterSplit
    rw [getRaw_unknown data first second hb]
  · rw [set_value_from_key_split data key first second v hs]
    unfold setAfterSplit
    rw [setRaw_unknown data first second v (not_mem_six_of_not_mem_nine first hb)]

/-- Witness for C2 at a concrete input. -/
theorem unknown_first_part_raises_index_error_witness :
    splitKey "foo.bar" = .ok ("foo", "bar") ∧
    get_value_from_key sampleData "foo.bar" = .error .indexError ∧
    set_value_from_key sampleData "foo.bar" (.num 0) = .error .indexError :=
  ⟨by decide,
   unknown_first_part_raises_index_error sampleData "foo.bar" "foo" "bar"
     (.num 0) (by decide) (by decide)⟩

/-- C5: for every key "first.second" whose first part names a known
non-None bucket in which second is absent, get_value_from_key raises
nothing and returns the empty string. -/
theorem missing_second_key_returns_empty_string (data : ChargerData)
    (key first second : String) (d : Dict)
    (hs : splitKey key = .ok (first, second))
    (hb : first ∈ nineBuckets)
    (hbk : bucketOf data first = Option.some (Option.some d))
    (hv : Dict.get? d second = Option.none) :
    get_value_from_key data key = .ok (.str "") := by
  rw [get_value_from_key_split data key first second hs]
  unfold getAfterSplit
  rw [getRaw_known data first second d hb hbk]
  simp [dictAccess, hv]

/-- Witness for C5 at a concrete input. -/
theorem missing_second_key_returns_empty_string_witness :
    splitKey "config.zz" = .ok ("config", "zz") ∧
    get_value_from_key sampleData "config.zz" = .ok (.str "") :=
  ⟨by decide,
   missing_second_key_returns_empty_string sampleData "config.zz" "config" "zz"
     [("x", Value.num 1)] (by decide) (by decide) (by decide) (by decide)⟩

/-- C10: for every key "first.second" with first equal to schedule or
weekly_schedule whose bucket is None, get_value_from_key returns Python
None: not the empty string and not an error. -/
theorem none_schedule_bucket_returns_python_none (data : ChargerData)
    (key first second : String)
    (hs : splitKey key = .ok (first, second))
    (h : (first = "schedule" ∧ data.schedule = Option.none) ∨
         (first = "weekly_schedule" ∧ data.weekly_schedule = Option.none)) :
    get_value_from_key data key = .ok Value.none ∧
    get_value_from_key data key ≠ .ok (Value.str "") ∧
    ∀ e, get_value_from_key data key ≠ .error e := by
  have hmain : get_value_from_key data key = .ok Value.none := by
    rcases h with ⟨rfl, hn⟩ | ⟨rfl, hn⟩
    · rw [get_value_from_key_split data key "schedule" second hs]
      unfold getAfterSplit
      rw [getRaw_schedule, hn]
      rfl
    · rw [get_value_from_key_split data key "weekly_schedule" second hs]
      unfold getAfterSplit
      rw [getRaw_weekly_schedule, hn]
      rfl
  refine ⟨hmain, ?_, ?_⟩
  · rw [hmain]
    simp
  · intro e
    rw [hmain]
    simp

/-- Witness for C10 at a concrete input. -/
theorem none_schedule_bucket_returns_python_none_witness :
    splitKey "schedule.a" = .ok ("schedule", "a") ∧
    get_value_from_key sampleData "schedule.a" = .ok Value.none :=
  ⟨by decide,
   (none_schedule_bucket_returns_python_none sampleData "schedule.a"
     "schedule" "a" (by decide) (Or.inl ⟨rfl, by decide⟩)).1⟩

/-! ### Claims about set_value_from_key -/

theorem setRaw_config (data : ChargerData) (second : String) (v : Value) :
    setRaw data "config" second v =
      .ok (match data.config with
           | Option.some d => { data with config := Option.some (Dict.set d second v) }
           | Option.none => data) := rfl

theorem setRaw_state (data : ChargerData) (second : String) (v : Value) :
    setRaw data "state" second v =
      .ok (match data.state with
           | Option.some d => { data with state := Option.some (Dict.set d second v) }
           | Option.none => data) := rfl

theorem setRaw_circuit (data : ChargerData) (second : String) (v : Value) :
    setRaw data "circuit" second v =
      match data.circuit with
      | Option.some d => .ok { data with circuit := Option.some (Dict.set d second v) }
      | Option.none => .error .typeError := rfl

theorem setRaw_site (data : ChargerData) (second : String) (v : Value) :
    setRaw data "site" second v =
      match data.site with
      | Option.some d => .ok { data with site := Option.some (Dict.set d second v) }
      | Option.none => .error .typeError := rfl

theorem setRaw_schedule (data : ChargerData) (second : String) (v : Value) :
    setRaw data "schedule" second v =
      .ok (match data.schedule with
           | Option.some d => { data with schedule := Option.some (Dict.set d second v) }
           | Option.none => data) := rfl

theorem setRaw_weekly_schedule (data : ChargerData) (second : String) (v : Value) :
    setRaw data "weekly_schedule" second v =
      .ok (match data.weekly_schedule with
           | Option.some d =>
             { data with weekly_schedule := Option.some (Dict.set d second v) }
           | Option.none => data) := rfl

/-- C3 counterexample: `set_value_from_key` has no cost_day / cost_month /
cost_year branches, so a cost prefix recognized by `get_value_from_key` is
treated as unknown by `set_value_from_key` (IndexError), even though the
cost_day bucket exists and holds that key. -/
theorem set_cost_prefix_counterexample :
    "cost_day" ∈ nineBuckets ∧
    bucketOf sampleData "cost_day" =
      Option.some (Option.some [("y", Value.num 3)]) ∧
    get_value_from_key sampleData "cost_day.y" = .ok (.num 3) ∧
    set_value_from_key sampleData "cost_day.y" (.num 5) = .error .indexError := by
  refine ⟨by decide, by decide, by decide, by decide⟩

/-- C3 amended: set_value_from_key dispatches over only six of
get_value_from_key's nine prefixes (config, state, circuit, site,
schedule, weekly_schedule); for every key "first.second" with first among
those six and the corresponding bucket existing (not None),
set_value_from_key stores the given value into that bucket. -/
theorem set_six_prefix_stores_value (data : ChargerData)
    (key first second : String) (v : Value) (d : Dict)
    (hs : splitKey key = .ok (first, second))
    (hb : first ∈ sixBuckets)
    (hbk : bucketOf data first = Option.some (Option.some d)) :
    ∃ data2, set_value_from_key data key v = .ok (data2, v) ∧
      bucketOf data2 first = Option.some (Option.some (Dict.set d second v)) := by
  rw [set_value_from_key_split data key first second v hs]
  unfold setAfterSplit
  simp only [sixBuckets, List.mem_cons, List.not_mem_nil, or_false] at hb
  rcases hb with rfl | rfl | rfl | rfl | rfl | rfl
  · rw [bucketOf_config] at hbk
    rw [setRaw_config, Option.some.inj hbk]
    exact ⟨_, rfl, by rw [bucketOf_config]⟩
  · rw [bucketOf_state] at hbk
    rw [setRaw_state, Option.some.inj hbk]
    exact ⟨_, rfl, by rw [bucketOf_state]⟩
  · rw [bucketOf_circuit] at hbk
    rw [setRaw_circuit, Option.some.inj hbk]
    exact ⟨_, rfl, by rw [bucketOf_circuit]⟩
  · rw [bucketOf_site] at hbk
    rw [setRaw_site, Option.some.inj hbk]
    exact ⟨_, rfl, by rw [bucketOf_site]⟩
  · rw [bucketOf_schedule] at hbk
    rw [setRaw_schedule, Option.some.inj hbk]
    exact ⟨_, rfl, by rw [bucketOf_schedule]⟩
  · rw [bucketOf_weekly_schedule] at hbk
    rw [setRaw_weekly_schedule, Option.some.inj hbk]
    exact ⟨_, rfl, by rw [bucketOf_weekly_schedule]⟩

/-- Witness for the amended C3 at a concrete input. -/
theorem set_six_prefix_stores_value_witness :
    splitKey "config.x" = .ok ("config", "x") ∧
    ∃ data2,
      set_value_from_key sampleData "config.x" (.num 7) = .ok (data2, .num 7) ∧
      bucketOf data2 "config" =
        Option.some (Option.some (Dict.set [("x", Value.num 1)] "x" (.num 7))) :=
  ⟨by decide,
   set_six_prefix_stores_value sampleData "config.x" "config" "x" (.num 7)
     [("x", Value.num 1)] (by decide) (by decide) (by decide)⟩

/-- C9: for every key "first.second" whose first part is one of the four
None-checked buckets (config, state, schedule, weekly_schedule) and whose
bucket is None, set_value_from_key is a silent no-op that still reports
success: no error, data unchanged, and the value argument returned; and
set_value_from_key returns its value argument in every non-raising case. -/
theorem set_none_bucket_silent_noop :
    (∀ (data : ChargerData) (key first second : String) (v : Value),
       splitKey key = .ok (first, second) →
       first ∈ noneCheckedBuckets →
       bucketOf data first = Option.some Option.none →
       set_value_from_key data key v = .ok (data, v)) ∧
    (∀ (data data2 : ChargerData) (key : String) (v r : Value),
       set_value_from_key data key v = .ok (data2, r) → r = v) := by
  constructor
  · intro data key first second v hs hb hbk
    rw [set_value_from_key_split data key first second v hs]
    unfold setAfterSplit
    simp only [noneCheckedBuckets, List.mem_cons, List.not_mem_nil, or_false] at hb
    rcases hb with rfl | rfl | rfl | rfl
    · rw [bucketOf_config] at hbk
      rw [setRaw_config, Option.some.inj hbk]
    · rw [bucketOf_state] at hbk
      rw [setRaw_state, Option.some.inj hbk]
    · rw [bucketOf_schedule] at hbk
      rw [setRaw_schedule, Option.some.inj hbk]
    · rw [bucketOf_weekly_schedule] at hbk
      rw [setRaw_weekly_schedule, Option.some.inj hbk]
  · intro data data2 key v r h
    cases hsk : splitKey key with
    | error e =>
      unfold set_value_from_key at h
      rw [hsk] at h
      cases h
    | ok fs =>
      obtain ⟨f, s⟩ := fs
      rw [set_value_from_key_split data key f s v hsk] at h
      unfold setAfterSplit at h
      cases hsr : setRaw data f s v with
      | error e => rw [hsr] at h; cases h
      | ok d2 =>
        rw [hsr] at h
        cases h
        rfl

/-- Witness for C9 at a concrete input. -/
theorem set_none_bucket_silent_noop_witness :
    splitKey "schedule.a" = .ok ("schedule", "a") ∧
    set_value_from_key sampleData "schedule.a" (.num 4) = .ok (sampleData, .num 4) :=
  ⟨by decide,
   set_none_bucket_silent_noop.1 sampleData "schedule.a" "schedule" "a"
     (.num 4) (by decide) (by decide) (by decide)⟩

/-! ### The two-part key shape -/

theorem pySplitDot_ne_nil (cs : List Char) : pySplitDot cs ≠ [] := by
  cases cs with
  | nil => simp [pySplitDot]
  | cons c cs =>
    unfold pySplitDot
    split
    · simp
    · split <;> simp

theorem pySplitDot_length (cs : List Char) :
    (pySplitDot cs).length = countDot cs + 1 := by
  induction cs with
  | nil => simp [pySplitDot, countDot]
  | cons c cs ih =>
    unfold pySplitDot countDot
    by_cases hc : c = '.'
    · simp [hc, ih]
      omega
    · simp only [hc, if_false, ite_false]
      cases hp : pySplitDot cs with
      | nil => exact absurd hp (pySplitDot_ne_nil cs)
      | cons p ps =>
        rw [hp] at ih
        simp only [List.length_cons] at ih ⊢
        omega

theorem splitKey_error_of_length_ne_two (key : String)
    (h : (pySplitDot key.data).length ≠ 2) :
    splitKey key = .error .valueError := by
  unfold splitKey
  cases hp : pySplitDot key.data with
  | nil => rfl
  | cons a t =>
    cases t with
    | nil => rfl
    | cons b t2 =>
      cases t2 with
      | nil => rw [hp] at h; simp at h
      | cons c t3 => rfl

/-- C7: both dispatch functions enforce the two-part key shape: a key that
does not split on "." into exactly two parts makes get_value_from_key and
set_value_from_key fail with ValueError (from the tuple unpacking) rather
than return a value; and when the key contains exactly one dot, the
unpacking cannot fail. -/
theorem two_part_key_shape_enforced :
    (∀ (key : String) (data : ChargerData) (v : Value),
       (pySplitDot key.data).length ≠ 2 →
       get_value_from_key data key = .error .valueError ∧
       set_value_from_key data key v = .error .valueError) ∧
    (∀ key : String, countDot key.data = 1 →
       ∃ a b, splitKey key = .ok (a, b)) := by
  constructor
  · intro key data v h
    constructor
    · unfold get_value_from_key
      rw [splitKey_error_of_length_ne_two key h]
    · unfold set_value_from_key
      rw [splitKey_error_of_length_ne_two key h]
  · intro key h
    have hl : (pySplitDot key.data).length = 2 := by
      rw [pySplitDot_length, h]
    obtain ⟨x, y, hxy⟩ := List.length_eq_two.mp hl
    refine ⟨x.asString, y.asString, ?_⟩
    unfold splitKey
    rw [hxy]

/-- Witness for C7 at concrete inputs. -/
theorem two_part_key_shape_enforced_witness :
    (get_value_from_key sampleData "abc" = .error .valueError ∧
     set_value_from_key sampleData "abc" (.num 0) = .error .valueError) ∧
    ∃ a b, splitKey "a.b" = .ok (a, b) :=
  ⟨two_part_key_shape_enforced.1 "abc" sampleData (.num 0) (by decide),
   two_part_key_shape_enforced.2 "a.b" (by decide)⟩

/-! ### Rounding -/

theorem pyRound_typeError_all (v : Value) (d : Option Nat)
    (h : pyRound v d = .error .typeError) :
    ∀ d2 : Option Nat, pyRound v d2 = .error .typeError := by
  cases v with
  | num q => cases d <;> simp [pyRound] at h
  | str s => intro d2; cases d2 <;> rfl
  | dt t => intro d2; cases d2 <;> rfl
  | none => intro d2; cases d2 <;> rfl

/-- C8: for every numeric value with a watt unit (WATT or WATT_HOUR),
round_to_dec — and hence round_2_dec, round_1_dec and round_0_dec —
ignores the requested decimals and returns the value multiplied by 1000,
rounded to the nearest integer (Python's half-to-even rounding); and for a
non-watt unit, when the round call raises TypeError (non-numeric value),
the value is returned unchanged. -/
theorem round_to_dec_watt_and_nonnumeric :
    (∀ (q : ℚ) (d : Option Nat) (u : Option String),
       (u = Option.some WATT ∨ u = Option.some WATT_HOUR) →
       round_to_dec (.num q) d u =
         .ok (.num ((roundHalfEven (q * 1000) : ℤ) : ℚ)) ∧
       round_2_dec (.num q) u = .ok (.num ((roundHalfEven (q * 1000) : ℤ) : ℚ)) ∧
       round_1_dec (.num q) u = .ok (.num ((roundHalfEven (q * 1000) : ℤ) : ℚ)) ∧
       round_0_dec (.num q) u = .ok (.num ((roundHalfEven (q * 1000) : ℤ) : ℚ))) ∧
    (∀ (v : Value) (d : Option Nat) (u : Option String),
       ¬(u = Option.some WATT ∨ u = Option.some WATT_HOUR) →
       pyRound v d = .error .typeError →
       round_to_dec v d u = .ok v ∧
       round_2_dec v u = .ok v ∧
       round_1_dec v u = .ok v ∧
       round_0_dec v u = .ok v) := by
  constructor
  · intro q d u hu
    rcases hu with rfl | rfl <;>
      refine ⟨?_, ?_, ?_, ?_⟩ <;>
        simp [round_to_dec, round_2_dec, round_1_dec, round_0_dec, pyMul1000,
          pyRound]
  · intro v d u hu h
    refine ⟨?_, ?_, ?_, ?_⟩
    · unfold round_to_dec
      rw [if_neg hu, h]
    · unfold round_2_dec round_to_dec
      rw [if_neg hu, pyRound_typeError_all v d h (Option.some 2)]
    · unfold round_1_dec round_to_dec
      rw [if_neg hu, pyRound_typeError_all v d h (Option.some 1)]
    · unfold round_0_dec round_to_dec
      rw [if_neg hu, pyRound_typeError_all v d h Option.none]

/-- Witness for C8 at concrete inputs. -/
theorem round_to_dec_watt_and_nonnumeric_witness :
    (Option.some WATT = Option.some WATT ∨
       Option.some WATT = Option.some WATT_HOUR) ∧
    round_2_dec (.num 2) (Option.some WATT) =
      .ok (.num ((roundHalfEven (2 * 1000) : ℤ) : ℚ)) ∧
    pyRound (Value.str "a") (Option.some 2) = .error .typeError ∧
    round_2_dec (.str "a") Option.none = .ok (.str "a") :=
  ⟨Or.inl rfl,
   (round_to_dec_watt_and_nonnumeric.1 2 (Option.some 2) (Option.some WATT)
     (Or.inl rfl)).2.1,
   rfl,
   (round_to_dec_watt_and_nonnumeric.2 (.str "a") (Option.some 2) Option.none
     (by simp [WATT, WATT_HOUR]) rfl).2.1⟩

/-! ### async_update -/

/-- C4 amended: async_update never propagates AttributeError, KeyError or
TypeError (they are swallowed), and when the initial value lookup itself
raises TypeError the surfaced state is None; but an error raised later, in
the state-function or unit coercion steps, leaves the previously
looked-up value as the state (see the counterexample). -/
theorem async_update_swallows_lookup_coercion_errors
    (e : EntityModel) (data : ChargerData) :
    (async_update e data ≠ .error .attributeError ∧
     async_update e data ≠ .error .keyError ∧
     async_update e data ≠ .error .typeError) ∧
    (get_value_from_key data e.state_key = .error .typeError →
     async_update e data = .ok Value.none) := by
  constructor
  · unfold async_update
    rcases h : updAfterGet e data with ⟨st, er⟩
    cases er with
    | none => simp
    | some e2 => cases e2 <;> simp
  · intro hget
    unfold async_update updAfterGet
    rw [hget]

/-- An entity whose unit-coercion function is round_0_dec with a watt
unit, as the sensor platform constructs for power sensors. -/
def convertEntity : EntityModel :=
  { state_key := "state.x", units := Option.some WATT,
    state_func := Option.none,
    convert_units_func := Option.some (fun v u => round_0_dec v u) }

/-- An entity whose state key names the None circuit bucket, so the value
lookup itself raises TypeError. -/
def lookupErrEntity : EntityModel :=
  { state_key := "circuit.a", units := Option.none,
    state_func := Option.none, convert_units_func := Option.none }

/-- C4 counterexample: the stored state of sampleData under "state.x" is a
datetime; round_0_dec with a watt unit raises TypeError on it
(datetime * 1000), async_update swallows the error — but the surfaced
state is the datetime looked up before the coercion, neither None nor
empty, contradicting the claim that swallowed errors surface an
unavailable/empty state. -/
theorem async_update_stale_state_counterexample :
    round_0_dec (Value.dt 0) (Option.some WATT) = .error .typeError ∧
    async_update convertEntity sampleData = .ok (.dt 0) ∧
    Value.dt 0 ≠ Value.none ∧
    Value.dt 0 ≠ Value.str "" :=
  ⟨by decide, by decide, by decide, by decide⟩

/-- Witness for the amended C4 at a concrete input. -/
theorem async_update_swallows_witness :
    get_value_from_key sampleData "circuit.a" = .error .typeError ∧
    async_update lookupErrEntity sampleData = .ok Value.none :=
  ⟨by decide,
   (async_update_swallows_lookup_coercion_errors lookupErrEntity
     sampleData).2 (by decide)⟩

/-! ### Device conditions -/

theorem length_flatMap_const {α β : Type} (l : List α) (f : α → List β) (k : Nat)
    (h : ∀ a, (f a).length = k) : (l.flatMap f).length = l.length * k := by
  induction l with
  | nil => simp
  | cons a l ih =>
    rw [List.flatMap_cons, List.length_append, h a, ih, List.length_cons,
      Nat.succ_mul]
    omega

theorem async_get_conditions_eq_flatMap (entries : List RegistryEntry)
    (device_id : String) (ct : List String) :
    async_get_conditions entries device_id ct =
      (entries.filter (fun e =>
          decide (e.translation_key = Option.some "easee_status"))).flatMap
        (fun e => ct.map (fun c =>
          { condition := "device", device_id := device_id, domain := DOMAIN,
            entity_id := e.entity_id, condType := c })) := by
  unfold async_get_conditions
  suffices h : ∀ (es : List RegistryEntry) (acc : List ConditionDict),
      List.foldl
        (fun conditions entry =>
          if entry.translation_key = Option.some "easee_status" then
            conditions ++ List.map
              (fun c => { condition := "device", device_id := device_id,
                          domain := DOMAIN, entity_id := entry.entity_id,
                          condType := c })
              ct
          else conditions)
        acc es =
      acc ++ (es.filter (fun e =>
          decide (e.translation_key = Option.some "easee_status"))).flatMap
        (fun e => ct.map (fun c =>
          { condition := "device", device_id := device_id, domain := DOMAIN,
            entity_id := e.entity_id, condType := c })) by
    rw [h entries []]
    simp
  intro es
  induction es with
  | nil => intro acc; simp
  | cons e es ih =>
    intro acc
    rw [List.foldl_cons]
    by_cases he : e.translation_key = Option.some "easee_status"
    · simp only [he, ite_true, List.filter_cons, decide_True,
        List.flatMap_cons, if_true]
      rw [ih]
      simp [List.append_assoc]
    · simp only [he, ite_false, List.filter_cons, decide_False, if_false]
      rw [ih]
      simp

/-- C6: for every device id, async_get_conditions yields exactly one
condition dictionary per supported condition string for each entity of the
device whose translation_key is "easee_status" — each dictionary holding
condition "device", the device id, the easee domain, that entity's id and
the condition type — and entities with any other translation key
contribute nothing. -/
theorem async_get_conditions_characterization (entries : List RegistryEntry)
    (device_id : String) (ct : List String) :
    (∀ dct : ConditionDict,
       dct ∈ async_get_conditions entries device_id ct ↔
         ∃ e, e ∈ entries ∧ e.translation_key = Option.some "easee_status" ∧
           ∃ c, c ∈ ct ∧
             dct = { condition := "device", device_id := device_id,
                     domain := DOMAIN, entity_id := e.entity_id,
                     condType := c }) ∧
    (async_get_conditions entries device_id ct).length =
      (entries.filter (fun e =>
          decide (e.translation_key = Option.some "easee_status"))).length *
        ct.length := by
  constructor
  · intro dct
    rw [async_get_conditions_eq_flatMap]
    simp only [List.mem_flatMap, List.mem_filter, List.mem_map,
      decide_eq_true_eq]
    constructor
    · rintro ⟨e, ⟨he, htk⟩, c, hc, rfl⟩
      exact ⟨e, he, htk, c, hc, rfl⟩
    · rintro ⟨e, he, htk, c, hc, rfl⟩
      exact ⟨e, ⟨he, htk⟩, c, hc, rfl⟩
  · rw [async_get_conditions_eq_flatMap]
    exact length_flatMap_const _ _ _ (fun e => List.length_map ct _)
